import Mathlib

/-!
Verification of the AstrBot `gemini-25-image-openrouter` plugin (`src/main.py`).

The development shallowly embeds the plugin's rate limiter
(`_check_and_update_limit`), the usage-record store, the admin reset command
(`reset_images_command`), the delivery helper (`send_image_with_callback_api`)
and the generation phase of the two handlers (`pic_gen`, `figure_transform`)
as pure Lean functions, and proves the specified properties about them.

Modelling conventions:
* Python `int` values (timestamps, counts, limits) are `Int`.
* Optional / possibly-missing configuration strings are `Option String`;
  Python truthiness of such a value (`if x:`) is `strTruthy` (non-`None`
  and non-empty).
* `dict.get(k, d)` on configuration is `Option.getD`.
* The in-memory `self.usage_records` dict is an association list
  `List (String × UsageRecord)` with first-match lookup and in-place
  replacement on assignment (Python dicts have unique keys, which the
  update operation preserves).
* Effects (yielding chat results, the `send_file` call, `_save_usage_records`,
  the `generate_image_openrouter` call) are recorded as explicit `Action`
  values in the order the code performs them; outcomes of external
  collaborators (`generate_image_openrouter`, `send_file`,
  `convert_to_web_link`) are inputs to the model, with Python exceptions
  modelled as `Except.error`.
-/

namespace Gemini25Image

/-- A usage record as persisted in `usage_records.json`:
a `{timestamp, count}` pair (`src/main.py` line 133). -/
structure UsageRecord where
  timestamp : Int
  count : Int
deriving Repr, DecidableEq

/-- One entry of `rate_limit.user_limits`: a dict with a `user_id` key and an
optional `limit` key (read with `item.get("limit", default_limit)`). -/
structure UserLimitEntry where
  user_id : String
  limit : Option Int
deriving Repr, DecidableEq

/-- One entry of `rate_limit.group_limits`, analogous to `UserLimitEntry`. -/
structure GroupLimitEntry where
  group_id : String
  limit : Option Int
deriving Repr, DecidableEq

/-- The `rate_limit` configuration dict.  Fields read with a default
(`default_limit`, `reset_interval_minutes`) are `Option Int`, the default
being supplied at the `get` site, mirroring
`self.rate_limit_config.get("default_limit", 10)` and
`self.rate_limit_config.get("reset_interval_minutes", 1440)`. -/
structure RateLimitConfig where
  enabled : Bool
  default_limit : Option Int
  user_limits : List UserLimitEntry
  group_limits : List GroupLimitEntry
  reset_interval_minutes : Option Int
deriving Repr, DecidableEq

/-- The in-memory `self.usage_records` mapping. -/
abbrev RecordMap := List (String × UsageRecord)

/-- The part of an `AstrMessageEvent` the rate limiter reads:
`event.get_sender_id()` and `event.get_group_id()` (the latter may be
`None` or empty for private chats). -/
structure Event where
  sender_id : String
  group_id : Option String
deriving Repr, DecidableEq

/-- Python truthiness of an optional string: `None` and `""` are falsy. -/
def strTruthy : Option String → Bool
  | none => false
  | some s => !s.isEmpty

/-- `self.usage_records.get(record_key, default)` without the default:
first-match association-list lookup. -/
def getRecord (records : RecordMap) (key : String) : Option UsageRecord :=
  records.lookup key

/-- `self.usage_records[record_key] = user_record`: replace the binding if
the key is present, otherwise append it. -/
def setRecord : RecordMap → String → UsageRecord → RecordMap
  | [], key, v => [(key, v)]
  | (k, w) :: rest, key, v =>
    if k == key then (key, v) :: rest else (k, w) :: setRecord rest key v

/-- Which kind of limit applied: `limit_type = "用户"` or `limit_type = "群组"`
in `_check_and_update_limit`. -/
inductive LimitType where
  | user
  | group
deriving Repr, DecidableEq

/-- Lines 104-127 of `_check_and_update_limit`: resolve the applicable limit.
A matching `user_limits` entry (first match of
`item.get("user_id") == user_id`) wins; otherwise, when the event has a
truthy group id, a matching `group_limits` entry is used; otherwise no limit
applies (`limit_type is None`).  An entry without a `limit` key falls back to
`rate_limit_config.get("default_limit", 10)`. -/
def resolveLimit (cfg : RateLimitConfig) (ev : Event) : Option (Int × LimitType) :=
  let defaultLimit := cfg.default_limit.getD 10
  match cfg.user_limits.find? (fun item => item.user_id == ev.sender_id) with
  | some item => some (item.limit.getD defaultLimit, LimitType.user)
  | none =>
    if strTruthy ev.group_id then
      match cfg.group_limits.find? (fun item => item.group_id == ev.group_id.getD "") with
      | some item => some (item.limit.getD defaultLimit, LimitType.group)
      | none => none
    else none

/-- Line 131: `record_key = f"group_{group_id}" if group_id else f"user_{user_id}"`. -/
def record_key (ev : Event) : String :=
  if strTruthy ev.group_id then "group_" ++ ev.group_id.getD ""
  else "user_" ++ ev.sender_id

/-- Lines 133-137: look the record up (defaulting to a fresh
`{timestamp: now, count: 0}`), then reset it to fresh when
`(current_timestamp - timestamp) / 60 > reset_interval`.  Python's `/` is
exact rational division and `reset_interval` is an integer, so the guard is
equivalent to `current_timestamp - timestamp > 60 * reset_interval` over `Int`. -/
def effectiveRecord (cfg : RateLimitConfig) (records : RecordMap) (ev : Event)
    (current_timestamp : Int) : UsageRecord :=
  let reset_interval := cfg.reset_interval_minutes.getD 1440
  let user_record := (getRecord records (record_key ev)).getD
    ⟨current_timestamp, 0⟩
  if current_timestamp - user_record.timestamp > 60 * reset_interval then
    ⟨current_timestamp, 0⟩
  else user_record

/-- Line 140: the denial reply, which embeds the numeric limit. -/
def denialMessage (limit : Int) : String :=
  "您已达到绘图次数上限（" ++ toString limit ++ "次），请稍后再试。"

/-- Lines 149-152: the success reply, which embeds the remaining count and,
for a per-user limit, the sender id. -/
def successMessage : LimitType → String → Int → String
  | LimitType.user, user_id, remaining =>
    "用户(" ++ user_id ++ ")绘图成功！您还剩余 " ++ toString remaining ++ " 次绘图机会。"
  | LimitType.group, _, remaining =>
    "绘图成功！您还剩余 " ++ toString remaining ++ " 次绘图机会。"

/-- The observable outcome of `_check_and_update_limit`: the returned
`(bool, str)` pair, the resulting in-memory `usage_records` mapping, and
whether `_save_usage_records` was called. -/
structure LimitCheckResult where
  allowed : Bool
  message : String
  records : RecordMap
  saved : Bool
deriving Repr, DecidableEq

/-- `_check_and_update_limit` (lines 94-154).  Disabled rate limiting or an
unresolved limit returns `(True, "")` without touching the records.  Otherwise
the (window-adjusted) record count is compared with the limit: at or above it,
the denial message is returned and nothing is stored; below it, the count is
incremented, the timestamp refreshed, the mapping updated and saved, and the
remaining-count message returned. -/
def check_and_update_limit (cfg : RateLimitConfig) (records : RecordMap)
    (ev : Event) (current_timestamp : Int) : LimitCheckResult :=
  if !cfg.enabled then ⟨true, "", records, false⟩
  else
    match resolveLimit cfg ev with
    | none => ⟨true, "", records, false⟩
    | some (limit, limit_type) =>
      let user_record := effectiveRecord cfg records ev current_timestamp
      if user_record.count ≥ limit then
        ⟨false, denialMessage limit, records, false⟩
      else
        let new_record : UsageRecord := ⟨current_timestamp, user_record.count + 1⟩
        let records' := setRecord records (record_key ev) new_record
        let remaining := limit - new_record.count
        ⟨true, successMessage limit_type ev.sender_id remaining, records', true⟩

/-- The observable outcome of `reset_images_command` (lines 416-422): the new
`usage_records` mapping, whether `_save_usage_records` was called, and the
reply text. -/
structure ResetResult where
  records : RecordMap
  saved : Bool
  reply : String
deriving Repr, DecidableEq

/-- `reset_images_command`: sets `self.usage_records = {}`, saves, and replies. -/
def reset_images_command : ResetResult :=
  ⟨[], true, "所有用户和群组的绘图次数已成功重置。"⟩

/-- A chat image component: `Image.fromFileSystem(path)` or `Image.fromURL(url)`. -/
inductive ImageComponent where
  | fromFile (path : String)
  | fromURL (url : String)
deriving Repr, DecidableEq

/-- A message component in a reply chain: an image or `Plain(text)`. -/
inductive Component where
  | image (c : ImageComponent)
  | plain (text : String)
deriving Repr, DecidableEq

/-- `send_image_with_callback_api` (lines 156-185).  `callback_api_base` is the
configured value (possibly `None`/empty); `convert` is the outcome of the
`try` block's `convert_to_web_link()` call, `Except.error` standing for any
raised exception (all three `except` clauses fall back identically).  The
function is total: it always returns an `ImageComponent` and never propagates
the conversion failure. -/
def send_image_with_callback_api (callback_api_base : Option String)
    (convert : Except String String) (image_path : String) : ImageComponent :=
  if !strTruthy callback_api_base then ImageComponent.fromFile image_path
  else
    match convert with
    | Except.ok download_url => ImageComponent.fromURL download_url
    | Except.error _ => ImageComponent.fromFile image_path

/-- An observable effect of a handler, in program order:
* `saveRecords` — `_save_usage_records()` inside `_check_and_update_limit`;
* `generateCall` — the `generate_image_openrouter(...)` call;
* `sendFileCall` — `send_file(image_path, host=..., port=...)`;
* `yieldPlain` — `yield event.plain_result(text)`;
* `yieldChain` — `yield event.chain_result(items)`. -/
inductive Action where
  | saveRecords
  | generateCall
  | sendFileCall (path : String) (host : String)
  | yieldPlain (text : String)
  | yieldChain (items : List Component)
deriving Repr, DecidableEq

/-- Line 265: `chain = [image_component, Plain(message)] if message else
[image_component]`, with the image component built by
`send_image_with_callback_api` on the delivered path. -/
def picChain (callback_api_base : Option String) (convert : Except String String)
    (message : String) (image_path : String) : List Component :=
  let image_component := Component.image
    (send_image_with_callback_api callback_api_base convert image_path)
  if message.isEmpty then [image_component]
  else [image_component, Component.plain message]

/-- Line 409: `result_chain = [Plain("✨ 手办化处理完成！"), image_component,
Plain(message)] if message else [Plain("✨ 手办化处理完成！"), image_component]`. -/
def figureChain (callback_api_base : Option String) (convert : Except String String)
    (message : String) (image_path : String) : List Component :=
  let image_component := Component.image
    (send_image_with_callback_api callback_api_base convert image_path)
  if message.isEmpty then [Component.plain "✨ 手办化处理完成！", image_component]
  else [Component.plain "✨ 手办化处理完成！", image_component, Component.plain message]

/-- Lines 250-270 of `pic_gen`, from the `generate_image_openrouter` call on.
`genResult` is that call's outcome: `Except.error e` when it raises (caught at
line 268), otherwise the returned `(image_url, image_path)` pair, each
component possibly `None`/empty (falsy).  `napResult` is the path returned by
`send_file` when the code calls it; `convert` feeds
`send_image_with_callback_api`.  Returns the emitted actions in order. -/
def pic_gen_generation (nap_server_address : Option String)
    (callback_api_base : Option String) (message : String)
    (genResult : Except String (Option String × Option String))
    (napResult : String) (convert : Except String String) : List Action :=
  match genResult with
  | Except.error e => [Action.yieldPlain ("图像生成失败: " ++ e)]
  | Except.ok (image_url, image_path) =>
    if !strTruthy image_url || !strTruthy image_path then
      [Action.yieldPlain "图像生成失败，请检查API配置和网络连接。"]
    else
      let path := image_path.getD ""
      if strTruthy nap_server_address && !(nap_server_address.getD "" == "localhost") then
        [Action.sendFileCall path (nap_server_address.getD ""),
         Action.yieldChain (picChain callback_api_base convert message napResult)]
      else
        [Action.yieldChain (picChain callback_api_base convert message path)]

/-- Lines 394-414 of `figure_transform`, from the `generate_image_openrouter`
call on; identical control flow to `pic_gen_generation` with the
figure-specific failure texts and reply chain. -/
def figure_transform_generation (nap_server_address : Option String)
    (callback_api_base : Option String) (message : String)
    (genResult : Except String (Option String × Option String))
    (napResult : String) (convert : Except String String) : List Action :=
  match genResult with
  | Except.error e => [Action.yieldPlain ("手办化处理失败: " ++ e)]
  | Except.ok (image_url, image_path) =>
    if !strTruthy image_url || !strTruthy image_path then
      [Action.yieldPlain "手办化处理失败，请检查API配置和网络连接。"]
    else
      let path := image_path.getD ""
      if strTruthy nap_server_address && !(nap_server_address.getD "" == "localhost") then
        [Action.sendFileCall path (nap_server_address.getD ""),
         Action.yieldChain (figureChain callback_api_base convert message napResult)]
      else
        [Action.yieldChain (figureChain callback_api_base convert message path)]

/-- The `pic_gen` handler (lines 187-270) as far as the usage records and the
emitted effects are concerned: run `_check_and_update_limit`; on denial yield
the denial text and stop; otherwise (the record having been saved inside the
check, before the generation call) call `generate_image_openrouter` and emit
the generation-phase actions.  Reference-image collection and
`_load_global_config` (lines 226-248) swallow their own exceptions and touch
neither the records nor the reply, so they are omitted.  Returns the action
trace and the final `usage_records` mapping, which no code after the limit
check modifies. -/
def pic_gen (cfg : RateLimitConfig) (records : RecordMap) (ev : Event)
    (current_timestamp : Int) (nap_server_address : Option String)
    (callback_api_base : Option String)
    (genResult : Except String (Option String × Option String))
    (napResult : String) (convert : Except String String) :
    List Action × RecordMap :=
  let r := check_and_update_limit cfg records ev current_timestamp
  if !r.allowed then ([Action.yieldPlain r.message], r.records)
  else
    ((if r.saved then [Action.saveRecords] else []) ++ [Action.generateCall] ++
      pic_gen_generation nap_server_address callback_api_base r.message
        genResult napResult convert,
     r.records)

/-- The `figure_transform` handler (lines 340-414), modelled like `pic_gen`.
`hasInputImages` is whether any reference image was collected (line 366
rejects the request with a plain message when none was, after the limit check
already ran and saved). -/
def figure_transform (cfg : RateLimitConfig) (records : RecordMap) (ev : Event)
    (current_timestamp : Int) (hasInputImages : Bool)
    (nap_server_address : Option String) (callback_api_base : Option String)
    (genResult : Except String (Option String × Option String))
    (napResult : String) (convert : Except String String) :
    List Action × RecordMap :=
  let r := check_and_update_limit cfg records ev current_timestamp
  if !r.allowed then ([Action.yieldPlain r.message], r.records)
  else if !hasInputImages then
    ((if r.saved then [Action.saveRecords] else []) ++
      [Action.yieldPlain "请提供一张图片以进行手办化处理！"], r.records)
  else
    ((if r.saved then [Action.saveRecords] else []) ++ [Action.generateCall] ++
      figure_transform_generation nap_server_address callback_api_base r.message
        genResult napResult convert,
     r.records)

/-- Records after `n` successive `_check_and_update_limit` calls for the same
event at the same timestamp, starting from an empty mapping (no record). -/
def recordsAfterChecks (cfg : RateLimitConfig) (ev : Event)
    (current_timestamp : Int) : Nat → RecordMap
  | 0 => []
  | n + 1 =>
    (check_and_update_limit cfg (recordsAfterChecks cfg ev current_timestamp n)
      ev current_timestamp).records

/-! ### Helper lemmas about the record store and the limit check -/

theorem getRecord_nil (key : String) : getRecord [] key = none := rfl

theorem getRecord_single (key : String) (v : UsageRecord) :
    getRecord [(key, v)] key = some v := by
  simp [getRecord, List.lookup]

theorem setRecord_single (key : String) (v w : UsageRecord) :
    setRecord [(key, v)] key w = [(key, w)] := by
  simp [setRecord]

theorem getRecord_setRecord (records : RecordMap) (key : String) (v : UsageRecord) :
    getRecord (setRecord records key v) key = some v := by
  induction records with
  | nil => simp [setRecord, getRecord, List.lookup]
  | cons p rest ih =>
    obtain ⟨k, w⟩ := p
    by_cases h : k = key
    · subst h
      simp [setRecord, getRecord, List.lookup]
    · have hk : (k == key) = false := by simp [h]
      have hk2 : (key == k) = false := by simp [Ne.symm h]
      simp only [setRecord, hk, Bool.false_eq_true, if_false]
      simpa [getRecord, List.lookup, hk2] using ih

theorem effectiveRecord_nil (cfg : RateLimitConfig) (ev : Event) (ts : Int) :
    effectiveRecord cfg [] ev ts = ⟨ts, 0⟩ := by
  simp [effectiveRecord, getRecord]

theorem effectiveRecord_of_lookup (cfg : RateLimitConfig) (records : RecordMap)
    (ev : Event) (ts : Int) (rec : UsageRecord)
    (hrec : getRecord records (record_key ev) = some rec) :
    effectiveRecord cfg records ev ts =
      if ts - rec.timestamp > 60 * cfg.reset_interval_minutes.getD 1440 then ⟨ts, 0⟩
      else rec := by
  simp [effectiveRecord, hrec]

/-- Master unfolding of `_check_and_update_limit` once a limit has resolved:
the outcome depends only on the window-adjusted record count versus the limit. -/
theorem check_eq_of_resolved (cfg : RateLimitConfig) (records : RecordMap)
    (ev : Event) (ts : Int) (limit : Int) (lt : LimitType)
    (hen : cfg.enabled = true)
    (hres : resolveLimit cfg ev = some (limit, lt)) :
    check_and_update_limit cfg records ev ts =
      if (effectiveRecord cfg records ev ts).count ≥ limit then
        ⟨false, denialMessage limit, records, false⟩
      else
        ⟨true,
         successMessage lt ev.sender_id
           (limit - ((effectiveRecord cfg records ev ts).count + 1)),
         setRecord records (record_key ev)
           ⟨ts, (effectiveRecord cfg records ev ts).count + 1⟩,
         true⟩ := by
  simp [check_and_update_limit, hen, hres]

/-! ### C9 -/

/-- C9: when `_check_and_update_limit` denies a draw (the window-adjusted count
is at or above the applicable limit), the in-memory usage-record mapping is
returned unchanged and `_save_usage_records` is not called: the count is not
incremented, the timestamp is not refreshed, and a window-expired reset
computed during the check is not stored back. -/
theorem denied_check_preserves_records (cfg : RateLimitConfig)
    (records : RecordMap) (ev : Event) (ts : Int)
    (h : (check_and_update_limit cfg records ev ts).allowed = false) :
    (check_and_update_limit cfg records ev ts).records = records ∧
    (check_and_update_limit cfg records ev ts).saved = false := by
  by_cases hen : cfg.enabled
  · rcases hres : resolveLimit cfg ev with _ | ⟨limit, lt⟩
    · simp [check_and_update_limit, hen, hres] at h
    · by_cases hcount : (effectiveRecord cfg records ev ts).count ≥ limit
      · simp [check_and_update_limit, hen, hres, hcount]
      · simp [check_and_update_limit, hen, hres, hcount] at h
  · simp [check_and_update_limit, hen] at h

/-- Witness for C9: a sender with per-user limit 0 is denied on an empty
record store, and the store and save flag are untouched. -/
theorem denied_check_preserves_records_witness :
    (check_and_update_limit
        ⟨true, some 10, [⟨"alice", some 0⟩], [], some 1440⟩
        [] ⟨"alice", none⟩ 1000).allowed = false ∧
    (check_and_update_limit
        ⟨true, some 10, [⟨"alice", some 0⟩], [], some 1440⟩
        [] ⟨"alice", none⟩ 1000).records = [] ∧
    (check_and_update_limit
        ⟨true, some 10, [⟨"alice", some 0⟩], [], some 1440⟩
        [] ⟨"alice", none⟩ 1000).saved = false := by
  refine ⟨by decide, ?_⟩
  have h := denied_check_preserves_records
    ⟨true, some 10, [⟨"alice", some 0⟩], [], some 1440⟩
    [] ⟨"alice", none⟩ 1000 (by decide)
  exact ⟨h.1, h.2⟩

/-! ### C3 -/

/-- C3: with rate limiting enabled, a matching `user_limits` entry determines
the limit (any `group_limits` entry for the event's group is ignored); failing
that, a matching `group_limits` entry determines it when the event has a
truthy group id; and when neither matches, the check permits the draw with an
empty message, leaves the record mapping untouched and performs no save
(unlimited). -/
theorem limit_resolution_order (cfg : RateLimitConfig) (records : RecordMap)
    (ev : Event) (ts : Int) (hen : cfg.enabled = true) :
    (∀ item, cfg.user_limits.find? (fun i => i.user_id == ev.sender_id) = some item →
      resolveLimit cfg ev =
        some (item.limit.getD (cfg.default_limit.getD 10), LimitType.user)) ∧
    (cfg.user_limits.find? (fun i => i.user_id == ev.sender_id) = none →
      strTruthy ev.group_id = true →
      ∀ item, cfg.group_limits.find? (fun i => i.group_id == ev.group_id.getD "") = some item →
      resolveLimit cfg ev =
        some (item.limit.getD (cfg.default_limit.getD 10), LimitType.group)) ∧
    (resolveLimit cfg ev = none →
      check_and_update_limit cfg records ev ts = ⟨true, "", records, false⟩) := by
  refine ⟨?_, ?_, ?_⟩
  · intro item hfind
    simp [resolveLimit, hfind]
  · intro hnone hgrp item hfind
    simp [resolveLimit, hnone, hgrp, hfind]
  · intro hres
    simp [check_and_update_limit, hen, hres]

/-- Witness for C3: user entry `bob ↦ 3` wins over group entry `g1 ↦ 7`;
without the user entry the group entry applies; with neither, the check is a
no-op permit. -/
theorem limit_resolution_order_witness :
    resolveLimit ⟨true, some 10, [⟨"bob", some 3⟩], [⟨"g1", some 7⟩], some 1440⟩
        ⟨"bob", some "g1"⟩ = some (3, LimitType.user) ∧
    resolveLimit ⟨true, some 10, [], [⟨"g1", some 7⟩], some 1440⟩
        ⟨"bob", some "g1"⟩ = some (7, LimitType.group) ∧
    check_and_update_limit ⟨true, some 10, [], [], some 1440⟩
        [("user_x", ⟨5, 2⟩)] ⟨"bob", some "g1"⟩ 1000 =
      ⟨true, "", [("user_x", ⟨5, 2⟩)], false⟩ := by
  refine ⟨?_, ?_, ?_⟩
  · exact (limit_resolution_order ⟨true, some 10, [⟨"bob", some 3⟩], [⟨"g1", some 7⟩], some 1440⟩
      [] ⟨"bob", some "g1"⟩ 0 rfl).1 ⟨"bob", some 3⟩ (by decide)
  · exact (limit_resolution_order ⟨true, some 10, [], [⟨"g1", some 7⟩], some 1440⟩
      [] ⟨"bob", some "g1"⟩ 0 rfl).2.1 (by decide) (by decide) ⟨"g1", some 7⟩ (by decide)
  · exact (limit_resolution_order ⟨true, some 10, [], [], some 1440⟩
      [("user_x", ⟨5, 2⟩)] ⟨"bob", some "g1"⟩ 1000 rfl).2.2 (by decide)

/-- Once a limit has resolved, the check permits the draw exactly when the
window-adjusted count is strictly below the limit. -/
theorem check_allowed_iff (cfg : RateLimitConfig) (records : RecordMap)
    (ev : Event) (ts : Int) (limit : Int) (lt : LimitType)
    (hen : cfg.enabled = true)
    (hres : resolveLimit cfg ev = some (limit, lt)) :
    (check_and_update_limit cfg records ev ts).allowed =
      decide ((effectiveRecord cfg records ev ts).count < limit) := by
  rw [check_eq_of_resolved cfg records ev ts limit lt hen hres]
  rcases lt_or_ge (effectiveRecord cfg records ev ts).count limit with h | h
  · rw [if_neg (by omega)]
    simp [h]
  · rw [if_pos h]
    simp
    omega

/-! ### C1 -/

/-- C1: for a stored usage record, if strictly more than
`reset_interval_minutes` minutes (default 1440) have elapsed since its
timestamp, the next limit check treats its count as 0 before comparing with
the limit; if the elapsed time is less than or equal to the interval, the
stored count is used unchanged.  (Python computes
`(current - timestamp) / 60 > reset_interval` with exact division, which over
the integers is `current - timestamp > 60 * reset_interval`.) -/
theorem window_reset_semantics (cfg : RateLimitConfig) (records : RecordMap)
    (ev : Event) (ts : Int) (limit : Int) (lt : LimitType) (rec : UsageRecord)
    (hen : cfg.enabled = true)
    (hres : resolveLimit cfg ev = some (limit, lt))
    (hrec : getRecord records (record_key ev) = some rec) :
    (ts - rec.timestamp > 60 * cfg.reset_interval_minutes.getD 1440 →
      effectiveRecord cfg records ev ts = ⟨ts, 0⟩ ∧
      (check_and_update_limit cfg records ev ts).allowed = decide ((0:Int) < limit)) ∧
    (ts - rec.timestamp ≤ 60 * cfg.reset_interval_minutes.getD 1440 →
      effectiveRecord cfg records ev ts = rec ∧
      (check_and_update_limit cfg records ev ts).allowed = decide (rec.count < limit)) := by
  have heff := effectiveRecord_of_lookup cfg records ev ts rec hrec
  have hall := check_allowed_iff cfg records ev ts limit lt hen hres
  constructor
  · intro hexp
    have h1 : effectiveRecord cfg records ev ts = ⟨ts, 0⟩ := by
      rw [heff, if_pos hexp]
    exact ⟨h1, by rw [hall, h1]⟩
  · intro hle
    have h1 : effectiveRecord cfg records ev ts = rec := by
      rw [heff, if_neg (by omega)]
    exact ⟨h1, by rw [hall, h1]⟩

/-- Witness for C1: a record with count 2 and timestamp 0, checked at time
100000 against interval 1440 (so 100000 s > 86400 s has elapsed), is treated
as count 0 and the check succeeds even though the stored count equals the
limit. -/
theorem window_reset_semantics_witness :
    effectiveRecord ⟨true, some 10, [⟨"alice", some 2⟩], [], some 1440⟩
        [("user_alice", ⟨0, 2⟩)] ⟨"alice", none⟩ 100000 = ⟨100000, 0⟩ ∧
    (check_and_update_limit ⟨true, some 10, [⟨"alice", some 2⟩], [], some 1440⟩
        [("user_alice", ⟨0, 2⟩)] ⟨"alice", none⟩ 100000).allowed = true := by
  have h := (window_reset_semantics
    ⟨true, some 10, [⟨"alice", some 2⟩], [], some 1440⟩
    [("user_alice", ⟨0, 2⟩)] ⟨"alice", none⟩ 100000 2 LimitType.user ⟨0, 2⟩
    rfl (by decide) (by decide)).1 (by decide)
  exact ⟨h.1, by rw [h.2]; decide⟩

/-! ### C4 -/

/-- C4: for every limit check that reaches the record lookup, the record key
is `"group_<id>"` whenever the event carries a (truthy) group id and
`"user_<id>"` otherwise — for any resolved limit type, in particular a
per-user limit applied inside a group — and the permitted check updates the
mapping at exactly that key (which `effectiveRecord` also read). -/
theorem record_key_group_precedence (cfg : RateLimitConfig) (records : RecordMap)
    (ev : Event) (ts : Int) (limit : Int) (lt : LimitType)
    (hen : cfg.enabled = true)
    (hres : resolveLimit cfg ev = some (limit, lt))
    (hall : (check_and_update_limit cfg records ev ts).allowed = true) :
    (strTruthy ev.group_id = true → record_key ev = "group_" ++ ev.group_id.getD "") ∧
    (strTruthy ev.group_id = false → record_key ev = "user_" ++ ev.sender_id) ∧
    (check_and_update_limit cfg records ev ts).records =
      setRecord records (record_key ev)
        ⟨ts, (effectiveRecord cfg records ev ts).count + 1⟩ := by
  have hch := check_eq_of_resolved cfg records ev ts limit lt hen hres
  refine ⟨fun h => by simp [record_key, h], fun h => by simp [record_key, h], ?_⟩
  by_cases hc : (effectiveRecord cfg records ev ts).count ≥ limit
  · rw [hch, if_pos hc] at hall
    simp at hall
  · rw [hch, if_neg hc]

/-- Witness for C4: "alice" has a per-user limit of 5 but draws inside group
"g9": the updated store binds the shared key `"group_g9"`. -/
theorem record_key_group_precedence_witness :
    record_key ⟨"alice", some "g9"⟩ = "group_g9" ∧
    (check_and_update_limit ⟨true, some 10, [⟨"alice", some 5⟩], [], some 1440⟩
        [] ⟨"alice", some "g9"⟩ 50).records = [("group_g9", ⟨50, 1⟩)] := by
  have h := record_key_group_precedence
    ⟨true, some 10, [⟨"alice", some 5⟩], [], some 1440⟩
    [] ⟨"alice", some "g9"⟩ 50 5 LimitType.user rfl (by decide) (by decide)
  refine ⟨by rw [h.1 (by decide)]; decide, ?_⟩
  rw [h.2.2]
  decide

/-! ### C5 -/

/-- C5: the admin reset command replaces the usage-record mapping with the
empty mapping and saves it; afterwards any limit check (for any sender or
group with an applicable limit `N ≥ 1`, even one previously at its limit)
starts from a fresh record with count 0 and is permitted. -/
theorem reset_clears_records (cfg : RateLimitConfig) (ev : Event) (ts : Int)
    (limit : Int) (lt : LimitType)
    (hen : cfg.enabled = true)
    (hres : resolveLimit cfg ev = some (limit, lt))
    (hpos : 1 ≤ limit) :
    reset_images_command.records = [] ∧
    reset_images_command.saved = true ∧
    effectiveRecord cfg reset_images_command.records ev ts = ⟨ts, 0⟩ ∧
    (check_and_update_limit cfg reset_images_command.records ev ts).allowed = true := by
  refine ⟨rfl, rfl, effectiveRecord_nil cfg ev ts, ?_⟩
  show (check_and_update_limit cfg [] ev ts).allowed = true
  rw [check_allowed_iff cfg [] ev ts limit lt hen hres, effectiveRecord_nil cfg ev ts]
  exact decide_eq_true (show (0:Int) < limit by omega)

/-- Witness for C5: after the reset, "alice" (limit 2, previously at her limit
before the reset discarded the records) draws again successfully. -/
theorem reset_clears_records_witness :
    reset_images_command.records = [] ∧
    (check_and_update_limit ⟨true, some 10, [⟨"alice", some 2⟩], [], some 1440⟩
        reset_images_command.records ⟨"alice", none⟩ 99999).allowed = true := by
  have h := reset_clears_records
    ⟨true, some 10, [⟨"alice", some 2⟩], [], some 1440⟩
    ⟨"alice", none⟩ 99999 2 LimitType.user rfl (by decide) (by decide)
  exact ⟨h.1, h.2.2.2⟩

/-! ### C8 -/

/-- C8: `send_image_with_callback_api` is total (it always returns an
`ImageComponent`, never propagating a conversion failure), and it returns the
local-file component for the given path both when `callback_api_base` is
unconfigured (falsy) and when the callback-URL conversion raises any
exception. -/
theorem callback_fallback_local_file (callback_api_base : Option String)
    (convert : Except String String) (image_path : String)
    (h : strTruthy callback_api_base = false ∨ ∃ e, convert = Except.error e) :
    send_image_with_callback_api callback_api_base convert image_path =
      ImageComponent.fromFile image_path := by
  rcases h with h | ⟨e, he⟩
  · simp [send_image_with_callback_api, h]
  · cases hb : strTruthy callback_api_base <;>
      simp [send_image_with_callback_api, hb, he]

/-- Witness for C8: with no `callback_api_base`, and with a configured base
whose conversion raises, the component is the local file in both cases. -/
theorem callback_fallback_local_file_witness :
    send_image_with_callback_api none (Except.ok "http://u") "/tmp/a.png" =
      ImageComponent.fromFile "/tmp/a.png" ∧
    send_image_with_callback_api (some "http://cb") (Except.error "timeout") "/tmp/a.png" =
      ImageComponent.fromFile "/tmp/a.png" :=
  ⟨callback_fallback_local_file none (Except.ok "http://u") "/tmp/a.png"
      (Or.inl (by decide)),
   callback_fallback_local_file (some "http://cb") (Except.error "timeout") "/tmp/a.png"
      (Or.inr ⟨"timeout", rfl⟩)⟩

/-! ### C6 -/

/-- C6: in both generation entry points, when the image-generation
collaborator returns a falsy URL or a falsy local path, the handler emits
exactly one plain-text failure message — no `send_file` call, no image
component, no image in the reply. -/
theorem falsy_generation_failure_message (nap_server_address : Option String)
    (callback_api_base : Option String) (message napResult : String)
    (convert : Except String String) (image_url image_path : Option String)
    (h : strTruthy image_url = false ∨ strTruthy image_path = false) :
    pic_gen_generation nap_server_address callback_api_base message
        (Except.ok (image_url, image_path)) napResult convert =
      [Action.yieldPlain "图像生成失败，请检查API配置和网络连接。"] ∧
    figure_transform_generation nap_server_address callback_api_base message
        (Except.ok (image_url, image_path)) napResult convert =
      [Action.yieldPlain "手办化处理失败，请检查API配置和网络连接。"] := by
  rcases h with h | h <;>
    simp [pic_gen_generation, figure_transform_generation, h]

/-- Witness for C6: a generation that returns an empty URL yields only the
failure text in both handlers. -/
theorem falsy_generation_failure_message_witness :
    pic_gen_generation (some "10.0.0.2") (some "http://cb") "msg"
        (Except.ok (some "", some "/tmp/a.png")) "/n/a.png" (Except.ok "u") =
      [Action.yieldPlain "图像生成失败，请检查API配置和网络连接。"] ∧
    figure_transform_generation (some "10.0.0.2") (some "http://cb") "msg"
        (Except.ok (some "", some "/tmp/a.png")) "/n/a.png" (Except.ok "u") =
      [Action.yieldPlain "手办化处理失败，请检查API配置和网络连接。"] :=
  falsy_generation_failure_message (some "10.0.0.2") (some "http://cb") "msg"
    "/n/a.png" (Except.ok "u") (some "") (some "/tmp/a.png") (Or.inl (by decide))

/-! ### C7 -/

/-- C7: for a successful generation (truthy URL and path), both handlers call
`send_file` exactly when `nap_server_address` is truthy and different from
`"localhost"` (the delivered path then being `send_file`'s return value), and
otherwise perform no file-transfer call and hand the locally returned image
path unchanged to the delivery step. -/
theorem nap_transfer_iff_configured (nap_server_address : Option String)
    (callback_api_base : Option String) (message napResult : String)
    (convert : Except String String) (image_url image_path : Option String)
    (hurl : strTruthy image_url = true) (hpath : strTruthy image_path = true) :
    (strTruthy nap_server_address = true → nap_server_address.getD "" ≠ "localhost" →
      pic_gen_generation nap_server_address callback_api_base message
          (Except.ok (image_url, image_path)) napResult convert =
        [Action.sendFileCall (image_path.getD "") (nap_server_address.getD ""),
         Action.yieldChain (picChain callback_api_base convert message napResult)] ∧
      figure_transform_generation nap_server_address callback_api_base message
          (Except.ok (image_url, image_path)) napResult convert =
        [Action.sendFileCall (image_path.getD "") (nap_server_address.getD ""),
         Action.yieldChain (figureChain callback_api_base convert message napResult)]) ∧
    (strTruthy nap_server_address = false ∨ nap_server_address.getD "" = "localhost" →
      pic_gen_generation nap_server_address callback_api_base message
          (Except.ok (image_url, image_path)) napResult convert =
        [Action.yieldChain (picChain callback_api_base convert message (image_path.getD ""))] ∧
      figure_transform_generation nap_server_address callback_api_base message
          (Except.ok (image_url, image_path)) napResult convert =
        [Action.yieldChain (figureChain callback_api_base convert message (image_path.getD ""))]) := by
  constructor
  · intro ht hne
    simp [pic_gen_generation, figure_transform_generation, hurl, hpath, ht, hne]
  · intro h
    rcases h with h | h <;>
      simp [pic_gen_generation, figure_transform_generation, hurl, hpath, h]

/-- Witness for C7: with a remote nap server the transfer is called and the
transferred path is delivered; with `nap_server_address = "localhost"` the
local path goes straight to delivery. -/
theorem nap_transfer_iff_configured_witness :
    pic_gen_generation (some "10.0.0.2") none "m"
        (Except.ok (some "http://img", some "/tmp/a.png")) "/n/a.png" (Except.ok "u") =
      [Action.sendFileCall "/tmp/a.png" "10.0.0.2",
       Action.yieldChain (picChain none (Except.ok "u") "m" "/n/a.png")] ∧
    pic_gen_generation (some "localhost") none "m"
        (Except.ok (some "http://img", some "/tmp/a.png")) "/n/a.png" (Except.ok "u") =
      [Action.yieldChain (picChain none (Except.ok "u") "m" "/tmp/a.png")] := by
  constructor
  · exact ((nap_transfer_iff_configured (some "10.0.0.2") none "m" "/n/a.png"
      (Except.ok "u") (some "http://img") (some "/tmp/a.png")
      (by decide) (by decide)).1 (by decide) (by decide)).1
  · exact ((nap_transfer_iff_configured (some "localhost") none "m" "/n/a.png"
      (Except.ok "u") (some "http://img") (some "/tmp/a.png")
      (by decide) (by decide)).2 (Or.inr rfl)).1

/-- Under a per-user limit `N` and a nonnegative reset interval, after
`i ≤ N` same-timestamp checks starting from no record, the store holds
exactly the count `i` at the record key (no entry at all when `i = 0`). -/
theorem recordsAfterChecks_eq (cfg : RateLimitConfig) (ev : Event) (ts : Int)
    (N : Nat)
    (hen : cfg.enabled = true)
    (hres : resolveLimit cfg ev = some ((N : Int), LimitType.user))
    (hint : 0 ≤ cfg.reset_interval_minutes.getD 1440) :
    ∀ i : Nat, i ≤ N →
      recordsAfterChecks cfg ev ts i =
        if i = 0 then [] else [(record_key ev, ⟨ts, (i : Int)⟩)] := by
  intro i
  induction i with
  | zero =>
    intro _
    rfl
  | succ j ih =>
    intro hij
    have hj : j ≤ N := Nat.le_of_succ_le hij
    have hprev := ih hj
    have heff : effectiveRecord cfg (recordsAfterChecks cfg ev ts j) ev ts =
        ⟨ts, (j : Int)⟩ := by
      by_cases h0 : j = 0
      · subst h0
        rw [hprev]
        simpa using effectiveRecord_nil cfg ev ts
      · rw [hprev, if_neg h0,
          effectiveRecord_of_lookup cfg _ ev ts ⟨ts, (j : Int)⟩
            (getRecord_single (record_key ev) ⟨ts, (j : Int)⟩),
          if_neg (by
            show ¬(ts - ts > 60 * cfg.reset_interval_minutes.getD 1440)
            omega)]
    have hch := check_eq_of_resolved cfg (recordsAfterChecks cfg ev ts j) ev ts
      (N : Int) LimitType.user hen hres
    show (check_and_update_limit cfg (recordsAfterChecks cfg ev ts j) ev ts).records = _
    rw [hch, if_neg (by rw [heff]; show ¬((j : Int) ≥ (N : Int)); omega)]
    show setRecord (recordsAfterChecks cfg ev ts j) (record_key ev)
        ⟨ts, (effectiveRecord cfg (recordsAfterChecks cfg ev ts j) ev ts).count + 1⟩ = _
    rw [heff, hprev, if_neg (Nat.succ_ne_zero j)]
    by_cases h0 : j = 0
    · subst h0
      show setRecord [] (record_key ev) ⟨ts, (0 : Int) + 1⟩ = _
      norm_num [setRecord]
    · rw [if_neg h0]
      show setRecord [(record_key ev, ⟨ts, (j : Int)⟩)] (record_key ev)
          ⟨ts, (j : Int) + 1⟩ = _
      rw [setRecord_single]
      norm_num

/-- The window-adjusted record seen by the `(i+1)`-th check is `⟨ts, i⟩`. -/
theorem effectiveRecord_afterChecks (cfg : RateLimitConfig) (ev : Event)
    (ts : Int) (N : Nat)
    (hen : cfg.enabled = true)
    (hres : resolveLimit cfg ev = some ((N : Int), LimitType.user))
    (hint : 0 ≤ cfg.reset_interval_minutes.getD 1440) :
    ∀ i : Nat, i ≤ N →
      effectiveRecord cfg (recordsAfterChecks cfg ev ts i) ev ts = ⟨ts, (i : Int)⟩ := by
  intro i hi
  have hprev := recordsAfterChecks_eq cfg ev ts N hen hres hint i hi
  by_cases h0 : i = 0
  · subst h0
    rw [hprev]
    simpa using effectiveRecord_nil cfg ev ts
  · rw [hprev, if_neg h0,
      effectiveRecord_of_lookup cfg _ ev ts ⟨ts, (i : Int)⟩
        (getRecord_single (record_key ev) ⟨ts, (i : Int)⟩),
      if_neg (by
        show ¬(ts - ts > 60 * cfg.reset_interval_minutes.getD 1440)
        omega)]

/-! ### C2 -/

/-- C2: for a sender with a configured per-user limit of `N` (rate limiting
enabled, all draws within one reset window, starting from no record), each
of the first `N` limit checks is permitted — the `(i+1)`-th permitted check
replying with the remaining count `N - (i+1)` — and the `(N+1)`-th check is
denied with the denial message citing the numeric limit `N`. -/
theorem per_user_limit_exhaustion (cfg : RateLimitConfig) (ev : Event)
    (ts : Int) (N : Nat)
    (hen : cfg.enabled = true)
    (hres : resolveLimit cfg ev = some ((N : Int), LimitType.user))
    (hint : 0 ≤ cfg.reset_interval_minutes.getD 1440) :
    (∀ i : Nat, i < N →
      (check_and_update_limit cfg (recordsAfterChecks cfg ev ts i) ev ts).allowed = true ∧
      (check_and_update_limit cfg (recordsAfterChecks cfg ev ts i) ev ts).message =
        successMessage LimitType.user ev.sender_id ((N : Int) - ((i : Int) + 1))) ∧
    (check_and_update_limit cfg (recordsAfterChecks cfg ev ts N) ev ts).allowed = false ∧
    (check_and_update_limit cfg (recordsAfterChecks cfg ev ts N) ev ts).message =
      denialMessage (N : Int) := by
  refine ⟨?_, ?_, ?_⟩
  · intro i hi
    have heff := effectiveRecord_afterChecks cfg ev ts N hen hres hint i
      (Nat.le_of_lt hi)
    have hch := check_eq_of_resolved cfg (recordsAfterChecks cfg ev ts i) ev ts
      (N : Int) LimitType.user hen hres
    rw [hch, if_neg (by rw [heff]; show ¬((i : Int) ≥ (N : Int)); omega), heff]
    exact ⟨rfl, rfl⟩
  · have heff := effectiveRecord_afterChecks cfg ev ts N hen hres hint N le_rfl
    rw [check_eq_of_resolved cfg (recordsAfterChecks cfg ev ts N) ev ts
        (N : Int) LimitType.user hen hres,
      if_pos (by rw [heff])]
  · have heff := effectiveRecord_afterChecks cfg ev ts N hen hres hint N le_rfl
    rw [check_eq_of_resolved cfg (recordsAfterChecks cfg ev ts N) ev ts
        (N : Int) LimitType.user hen hres,
      if_pos (by rw [heff])]

/-- Witness for C2: "alice" with a per-user limit of 2: the first and second
checks succeed with remaining counts 1 and 0, the third is denied with the
message citing the limit 2. -/
theorem per_user_limit_exhaustion_witness :
    ((check_and_update_limit ⟨true, some 10, [⟨"alice", some 2⟩], [], some 1440⟩
        (recordsAfterChecks ⟨true, some 10, [⟨"alice", some 2⟩], [], some 1440⟩
          ⟨"alice", none⟩ 0 0) ⟨"alice", none⟩ 0).allowed = true) ∧
    ((check_and_update_limit ⟨true, some 10, [⟨"alice", some 2⟩], [], some 1440⟩
        (recordsAfterChecks ⟨true, some 10, [⟨"alice", some 2⟩], [], some 1440⟩
          ⟨"alice", none⟩ 0 1) ⟨"alice", none⟩ 0).allowed = true) ∧
    ((check_and_update_limit ⟨true, some 10, [⟨"alice", some 2⟩], [], some 1440⟩
        (recordsAfterChecks ⟨true, some 10, [⟨"alice", some 2⟩], [], some 1440⟩
          ⟨"alice", none⟩ 0 1) ⟨"alice", none⟩ 0).message =
      "用户(alice)绘图成功！您还剩余 0 次绘图机会。") ∧
    ((check_and_update_limit ⟨true, some 10, [⟨"alice", some 2⟩], [], some 1440⟩
        (recordsAfterChecks ⟨true, some 10, [⟨"alice", some 2⟩], [], some 1440⟩
          ⟨"alice", none⟩ 0 2) ⟨"alice", none⟩ 0).allowed = false) ∧
    ((check_and_update_limit ⟨true, some 10, [⟨"alice", some 2⟩], [], some 1440⟩
        (recordsAfterChecks ⟨true, some 10, [⟨"alice", some 2⟩], [], some 1440⟩
          ⟨"alice", none⟩ 0 2) ⟨"alice", none⟩ 0).message =
      "您已达到绘图次数上限（2次），请稍后再试。") := by
  have h := per_user_limit_exhaustion
    ⟨true, some 10, [⟨"alice", some 2⟩], [], some 1440⟩ ⟨"alice", none⟩ 0 2
    rfl (by decide) (by decide)
  refine ⟨(h.1 0 (by omega)).1, (h.1 1 (by omega)).1, ?_, h.2.1, ?_⟩
  · rw [(h.1 1 (by omega)).2]
    decide
  · rw [h.2.2]
    decide

/-! ### C10 -/

/-- C10: in both handlers, a draw attempt that passes a resolved limit check
saves the incremented record before the image-generation call (the trace
starts `saveRecords, generateCall`), and the final record store — for every
generation outcome, including a raised exception or a falsy URL/path — is the
incremented store: one unit of the sender's quota is consumed with no
rollback, and the stored count at the record key is the incremented one. -/
theorem quota_consumed_before_generation (cfg : RateLimitConfig)
    (records : RecordMap) (ev : Event) (ts : Int)
    (nap_server_address callback_api_base : Option String)
    (genResult : Except String (Option String × Option String))
    (napResult : String) (convert : Except String String)
    (limit : Int) (lt : LimitType)
    (hen : cfg.enabled = true)
    (hres : resolveLimit cfg ev = some (limit, lt))
    (hall : (check_and_update_limit cfg records ev ts).allowed = true) :
    ((pic_gen cfg records ev ts nap_server_address callback_api_base genResult
        napResult convert).1.take 2 = [Action.saveRecords, Action.generateCall]) ∧
    ((pic_gen cfg records ev ts nap_server_address callback_api_base genResult
        napResult convert).2 =
      setRecord records (record_key ev)
        ⟨ts, (effectiveRecord cfg records ev ts).count + 1⟩) ∧
    ((figure_transform cfg records ev ts true nap_server_address callback_api_base
        genResult napResult convert).1.take 2 =
      [Action.saveRecords, Action.generateCall]) ∧
    ((figure_transform cfg records ev ts true nap_server_address callback_api_base
        genResult napResult convert).2 =
      setRecord records (record_key ev)
        ⟨ts, (effectiveRecord cfg records ev ts).count + 1⟩) ∧
    getRecord (setRecord records (record_key ev)
        ⟨ts, (effectiveRecord cfg records ev ts).count + 1⟩) (record_key ev) =
      some ⟨ts, (effectiveRecord cfg records ev ts).count + 1⟩ := by
  have hch := check_eq_of_resolved cfg records ev ts limit lt hen hres
  by_cases hc : (effectiveRecord cfg records ev ts).count ≥ limit
  · rw [hch, if_pos hc] at hall
    simp at hall
  · have hr : check_and_update_limit cfg records ev ts =
        ⟨true,
         successMessage lt ev.sender_id
           (limit - ((effectiveRecord cfg records ev ts).count + 1)),
         setRecord records (record_key ev)
           ⟨ts, (effectiveRecord cfg records ev ts).count + 1⟩,
         true⟩ := by
      rw [hch, if_neg hc]
    refine ⟨?_, ?_, ?_, ?_, getRecord_setRecord records (record_key ev) _⟩ <;>
      simp [pic_gen, figure_transform, hr]

/-- Witness for C10: "alice" (limit 1, empty store) draws; the generation
raises, yet the trace begins with the save followed by the generation call
and the store keeps the consumed unit. -/
theorem quota_consumed_before_generation_witness :
    ((pic_gen ⟨true, some 10, [⟨"alice", some 1⟩], [], some 1440⟩ [] ⟨"alice", none⟩ 7
        none none (Except.error "boom") "/n/a.png" (Except.ok "u")).1.take 2 =
      [Action.saveRecords, Action.generateCall]) ∧
    ((pic_gen ⟨true, some 10, [⟨"alice", some 1⟩], [], some 1440⟩ [] ⟨"alice", none⟩ 7
        none none (Except.error "boom") "/n/a.png" (Except.ok "u")).2 =
      [("user_alice", ⟨7, 1⟩)]) := by
  have h := quota_consumed_before_generation
    ⟨true, some 10, [⟨"alice", some 1⟩], [], some 1440⟩ [] ⟨"alice", none⟩ 7
    none none (Except.error "boom") "/n/a.png" (Except.ok "u") 1 LimitType.user
    rfl (by decide) (by decide)
  refine ⟨h.1, ?_⟩
  rw [h.2.1]
  decide

end Gemini25Image
